import Mathlib

/-
Verification of the per-tick control loop of an RLBot-style driving agent
(src/src/bot.py).  The bot's numeric computations (Python floats) are
modelled over the real numbers, so several definitions are noncomputable
(Euclidean length uses Real.sqrt and branch conditions compare reals);
concrete evaluations in the theorems below are carried out by rewriting.

Out-of-scope collaborators (vector algebra, orientation math, the timed
sequence executor, the math library's atan2) are not under src/; they are
modelled from the specification's contracts and flagged as such in their
doc comments.  Everything else is a direct transcription of bot.py.
-/

open Classical

namespace BotModel

/-- Modelled from the spec: Vector3 value type of the out-of-scope vector
algebra collaborator; (x, y, z) real-valued position/velocity. -/
structure Vec3 where
  x : ℝ
  y : ℝ
  z : ℝ

namespace Vec3

/-- Modelled from the spec: componentwise subtraction. -/
def sub (a b : Vec3) : Vec3 := ⟨a.x - b.x, a.y - b.y, a.z - b.z⟩

instance : Sub Vec3 := ⟨sub⟩

/-- Modelled from the spec: scalar rescaling helper used by rescale. -/
def smul (c : ℝ) (v : Vec3) : Vec3 := ⟨c * v.x, c * v.y, c * v.z⟩

/-- Modelled from the spec: dot product. -/
def dot (a b : Vec3) : ℝ := a.x * b.x + a.y * b.y + a.z * b.z

/-- Modelled from the spec: Euclidean magnitude. -/
noncomputable def length (v : Vec3) : ℝ := Real.sqrt (v.x ^ 2 + v.y ^ 2 + v.z ^ 2)

/-- Modelled from the spec: projection onto the horizontal plane. -/
def flat (v : Vec3) : Vec3 := ⟨v.x, v.y, 0⟩

/-- Modelled from the spec: Euclidean distance. -/
noncomputable def dist (a b : Vec3) : ℝ := (a - b).length

/-- Modelled from the spec: rescale-to-length (scales the vector so that its
magnitude becomes the requested length). -/
noncomputable def rescale (v : Vec3) (newLen : ℝ) : Vec3 := smul (newLen / v.length) v

end Vec3

/-- Modelled from the spec: orientation collaborator exposing the orthonormal
forward/right/up basis vectors recomputed from the snapshot each tick. -/
structure Orientation where
  forward : Vec3
  right : Vec3
  up : Vec3

/-- Modelled from the spec: relative_location of the out-of-scope orientation
collaborator; components of (target - center) along the basis vectors. -/
def relativeLocation (center : Vec3) (ori : Orientation) (target : Vec3) : Vec3 :=
  ⟨(target - center).dot ori.forward, (target - center).dot ori.right,
    (target - center).dot ori.up⟩

/-- Modelled from the spec: the math library's atan2 (used for the heading
error angle), defined piecewise from arctan. -/
noncomputable def atan2 (y x : ℝ) : ℝ :=
  if 0 < x then Real.arctan (y / x)
  else if x < 0 then
    (if 0 ≤ y then Real.arctan (y / x) + Real.pi else Real.arctan (y / x) - Real.pi)
  else if 0 < y then Real.pi / 2
  else if y < 0 then -(Real.pi / 2)
  else 0

/-- VehicleState fields of the snapshot read by bot.py. -/
structure CarState where
  location : Vec3
  velocity : Vec3
  orientation : Orientation
  boost : ℝ
  hasWheelContact : Bool

/-- One ball-prediction slice: predicted location plus its future timestamp. -/
structure Slice where
  location : Vec3
  gameSeconds : ℝ

/-- The game-info part of the snapshot read by bot.py. -/
structure GameInfo where
  isRoundActive : Bool
  secondsElapsed : ℝ

/-- A boost pad as seen through the tracker: static location plus the
per-tick active flag (the model receives the full-size pads as a list). -/
structure BoostPad where
  location : Vec3
  isActive : Bool

/-- The returned control command; all fields default to neutral. -/
structure Controls where
  steer : ℝ := 0
  throttle : ℝ := 0
  pitch : ℝ := 0
  roll : ℝ := 0
  jump : Bool := false
  boost : Bool := false
  handbrake : Bool := false

/-- The per-tick input of get_output: my car, the ball, game info, the ball
prediction, and the elapsed time since the previous call (consumed by the
spec-modelled sequence executor). -/
structure Packet where
  car : CarState
  ballLocation : Vec3
  ballVelocity : Vec3
  gameInfo : GameInfo
  prediction : Option (List Slice)
  dt : ℝ

/-- One step of a timed control sequence: a duration and the command held
for that duration.  Modelled from the spec: the TimedSequenceExecutor
collaborator (util/sequence.py is not under src/). -/
structure ControlStep where
  duration : ℝ
  controls : Controls

/-- Modelled from the spec: the command of the step whose cumulative-duration
window contains the elapsed time t, walking the ordered step list; absent
once t passes the total duration. -/
noncomputable def stepAt : List ControlStep → ℝ → Option Controls
  | [], _ => none
  | st :: rest, t => if t < st.duration then some st.controls else stepAt rest (t - st.duration)

/-- Modelled from the spec: ActiveSequence process state: the ordered steps,
the accumulated elapsed time, and the completion flag. -/
structure Sequence where
  steps : List ControlStep
  elapsed : ℝ
  done : Bool

/-- Modelled from the spec: tick(elapsed_since_last_call) accumulates the
elapsed time, returns the command of the step whose window contains it, and
marks the sequence done once the total duration has been consumed. -/
noncomputable def Sequence.tick (q : Sequence) (dt : ℝ) : Option Controls × Sequence :=
  let e := q.elapsed + dt
  let r := stepAt q.steps e
  (r, { steps := q.steps, elapsed := e, done := r.isNone })

/-- The four steps of the scripted front flip (bot.py lines 178-183). -/
def frontFlipSteps : List ControlStep :=
  [⟨0.05, { jump := true }⟩,
   ⟨0.05, { jump := false }⟩,
   ⟨0.2, { jump := true, pitch := -1 }⟩,
   ⟨0.8, {}⟩]

/-- Cross-tick bot state: the optional active sequence (bot.py line 20). -/
structure BotState where
  activeSequence : Option Sequence

/-- begin_front_flip (bot.py lines 172-186): install the scripted front-flip
sequence and return the controls of its first tick (the quick-chat side
signal is fire-and-forget and not modelled). -/
noncomputable def beginFrontFlip : Controls × BotState :=
  let q : Sequence := { steps := frontFlipSteps, elapsed := 0, done := false }
  let tr := q.tick 0
  (tr.1.getD {}, ⟨some tr.2⟩)

/-- is_kickoff (bot.py lines 188-190): round active and the ball exactly at
the field-center x = 0, y = 0. -/
def isKickoff (p : Packet) : Prop :=
  p.gameInfo.isRoundActive = true ∧ p.ballLocation.x = 0 ∧ p.ballLocation.y = 0

/-- choose_shadow_position (bot.py lines 131-148). -/
noncomputable def chooseShadowPosition (ballLocation ballVelocity ownGoal : Vec3) :
    Option Vec3 :=
  if (ownGoal.y - ballLocation.y) * ballVelocity.y > 0 ∧ |ballVelocity.y| > 150 then
    let ballDistanceFromGoal := ballLocation.flat.dist ownGoal.flat
    if ballDistanceFromGoal > 3800 then none
    else
      let goalToBall := (ballLocation - ownGoal).flat
      if goalToBall.length < 1 then none
      else
        let shadowDistance := max 650 (min 1200 (ballDistanceFromGoal * 0.45))
        let shadowDirection := goalToBall.rescale 1
        let target := ballLocation - shadowDirection.rescale shadowDistance
        some ⟨target.x, target.y, 0⟩
  else none

/-- The detour score of a boost pad (bot.py line 165): distance from the
vehicle plus 0.35 times the pad's distance to the current target. -/
noncomputable def detourScore (carLocation currentTarget : Vec3) (pad : BoostPad) : ℝ :=
  carLocation.flat.dist pad.location.flat +
    pad.location.flat.dist currentTarget.flat * 0.35

/-- The loop of choose_best_boost (bot.py lines 154-168), carrying the best
pad and its score. -/
noncomputable def boostLoop (criticalDefense : Prop) (carLocation currentTarget : Vec3) :
    List BoostPad → Option (BoostPad × ℝ) → Option BoostPad
  | [], best => best.map Prod.fst
  | pad :: rest, best =>
    if pad.isActive = false then boostLoop criticalDefense carLocation currentTarget rest best
    else
      let padDistance := carLocation.flat.dist pad.location.flat
      if padDistance > 5000 then boostLoop criticalDefense carLocation currentTarget rest best
      else if criticalDefense ∧ padDistance > 1200 then
        boostLoop criticalDefense carLocation currentTarget rest best
      else
        let score := detourScore carLocation currentTarget pad
        match best with
        | none => boostLoop criticalDefense carLocation currentTarget rest (some (pad, score))
        | some (bp, bs) =>
          if score < bs then boostLoop criticalDefense carLocation currentTarget rest (some (pad, score))
          else boostLoop criticalDefense carLocation currentTarget rest (some (bp, bs))

/-- choose_best_boost (bot.py lines 150-170): the candidate pads are the
tracker's full-size pads, received as a list. -/
noncomputable def chooseBestBoost (pads : List BoostPad)
    (carLocation currentTarget ballLocation ownGoal : Vec3) : Option BoostPad :=
  boostLoop (ballLocation.flat.dist ownGoal.flat < 1800) carLocation currentTarget pads none

/-- choose_desired_speed, fall-through path (bot.py lines 225-228):
heading-dependent base speed, reduced at short range. -/
noncomputable def desiredSpeedDefault (distance angleToTarget : ℝ) : ℝ :=
  let baseSpeed : ℝ := if |angleToTarget| < 0.25 then 1900 else 1500
  if distance < 800 then max 700 (distance * 1.2) else baseSpeed

/-- choose_desired_speed (bot.py lines 220-228). -/
noncomputable def chooseDesiredSpeed (distance angleToTarget : ℝ)
    (timeRemaining : Option ℝ) : ℝ :=
  match timeRemaining with
  | some t =>
    if t > 0 then max 700 (min (distance / max t 0.1) 2200)
    else desiredSpeedDefault distance angleToTarget
  | none => desiredSpeedDefault distance angleToTarget

/-- estimate_travel_time (bot.py lines 213-218). -/
noncomputable def estimateTravelTime (carLocation : Vec3) (carSpeed : ℝ)
    (target : Vec3) : ℝ :=
  let distance := carLocation.flat.dist target.flat
  let effectiveSpeed := max 700 (min 2300 (carSpeed + 900))
  distance / effectiveSpeed

/-- The scan of select_intercept_slice (bot.py lines 200-209): iterate the
slices in strides of 8 starting at index i; skip slices higher than 250;
return the first one whose estimated travel time beats the time available
plus 0.1 of slack. -/
noncomputable def scanSlices (slices : List Slice) (carLocation : Vec3)
    (carSpeed currentTime : ℝ) (i : ℕ) : Option Slice :=
  if h : i < slices.length then
    let s := slices.get ⟨i, h⟩
    if s.location.z > 250 then scanSlices slices carLocation carSpeed currentTime (i + 8)
    else if estimateTravelTime carLocation carSpeed s.location <
        s.gameSeconds - currentTime + 0.1 then some s
    else scanSlices slices carLocation carSpeed currentTime (i + 8)
  else none
termination_by slices.length - i
decreasing_by all_goals omega

/-- select_intercept_slice (bot.py lines 192-211). -/
noncomputable def selectInterceptSlice (prediction : Option (List Slice))
    (car : CarState) (currentTime : ℝ) : Option Slice :=
  match prediction with
  | none => none
  | some slices => scanSlices slices car.location car.velocity.length currentTime 0

/-- The attacked goal's y coordinate (bot.py line 74). -/
def opponentGoalY (team : ℕ) : ℝ := if team = 0 then 5120 else -5120

/-- The attacked goal (bot.py line 75). -/
def opponentGoal (team : ℕ) : Vec3 := ⟨0, opponentGoalY team, 0⟩

/-- The defended goal (bot.py line 76). -/
def ownGoal (team : ℕ) : Vec3 := ⟨0, -opponentGoalY team, 0⟩

/-- The goal the approach is computed against (bot.py line 81): the opponent
goal normally, the own goal when shadowing. -/
def approachGoalFor (team : ℕ) (shadowTarget : Option Vec3) : Vec3 :=
  match shadowTarget with
  | none => opponentGoal team
  | some _ => ownGoal team

/-- The stand-off offset distance (bot.py line 85): 320 when an intercept
slice exists and its predicted height is below 150, else 240. -/
noncomputable def offsetDistanceFor (targetSlice : Option Slice) : ℝ :=
  match targetSlice with
  | some s => if s.location.z < 150 then 320 else 240
  | none => 240

/-- The offense/shadow aim-point computation (bot.py lines 81-87): offset the
target point along the flattened direction toward the relevant goal, with a
fixed lateral fallback direction when that direction degenerates, and clamp
the height to non-negative. -/
noncomputable def computeApproach (team : ℕ) (targetSlice : Option Slice)
    (targetPosition : Vec3) (shadowTarget : Option Vec3) : Vec3 :=
  let approachGoal := approachGoalFor team shadowTarget
  let approachDirection0 := (approachGoal - targetPosition).flat
  let approachDirection :=
    if approachDirection0.length < 1 then
      (⟨0, if opponentGoalY team > 0 then 1 else -1, 0⟩ : Vec3)
    else approachDirection0
  let targetLocation := targetPosition - approachDirection.rescale (offsetDistanceFor targetSlice)
  ⟨targetLocation.x, targetLocation.y, max 0 targetLocation.z⟩

/-- The quantities the speed controller computes on a pipeline tick
(bot.py lines 102-116), recorded for observation. -/
structure SpeedInfo where
  distanceToTarget : ℝ
  angleToTarget : ℝ
  timeRemaining : Option ℝ
  desiredSpeed : ℝ
  forwardSpeed : ℝ
  speedError : ℝ

/-- The observable outcome of one get_output call: the returned command, the
target actually passed to the steering collaborator (absent when no steering
happened), the boost-pad override and pre-override aim point (absent off the
pipeline path), the speed-controller quantities (absent when the speed
controller did not run), and the updated cross-tick state. -/
structure TickResult where
  controls : Controls
  steerTarget : Option Vec3
  chosenBoost : Option BoostPad
  aimPoint : Option Vec3
  speedInfo : Option SpeedInfo
  state : BotState

/-- get_output lines 68-129: the intercept/target/speed pipeline that runs
once the sequence, airborne-recovery and kickoff branches have all fallen
through. -/
noncomputable def mainPipeline (team : ℕ) (steerFn : CarState → Vec3 → ℝ)
    (pads : List BoostPad) (s : BotState) (p : Packet) : TickResult :=
  let car := p.car
  let carLocation := car.location
  let carVelocity := car.velocity
  let ballLocation := p.ballLocation
  let intercept := selectInterceptSlice p.prediction car p.gameInfo.secondsElapsed
  let targetSlice := intercept
  let targetPosition :=
    match targetSlice with
    | some sl => sl.location
    | none => ballLocation
  let shadowTarget := chooseShadowPosition ballLocation p.ballVelocity (ownGoal team)
  let targetPosition2 :=
    match shadowTarget with
    | some sh => sh
    | none => targetPosition
  let targetLocation := computeApproach team targetSlice targetPosition2 shadowTarget
  let boostChoice :=
    if car.boost < 25 ∧ ¬ isKickoff p then
      chooseBestBoost pads carLocation targetLocation ballLocation (ownGoal team)
    else none
  let targetLocation2 :=
    match boostChoice with
    | some pad => pad.location
    | none => targetLocation
  let targetSlice2 :=
    match boostChoice with
    | some _ => none
    | none => targetSlice
  let relativeTarget := relativeLocation carLocation car.orientation targetLocation2
  let angleToTarget := atan2 relativeTarget.y relativeTarget.x
  let distanceToTarget := carLocation.flat.dist targetLocation2.flat
  let timeRemaining :=
    match targetSlice2 with
    | some sl => some (sl.gameSeconds - p.gameInfo.secondsElapsed)
    | none => none
  let desiredSpeed := chooseDesiredSpeed distanceToTarget angleToTarget timeRemaining
  let forwardSpeed := carVelocity.dot car.orientation.forward
  let speedError := desiredSpeed - forwardSpeed
  let relativeBall := relativeLocation carLocation car.orientation ballLocation
  let lowAndCentered :=
    relativeBall.x > -30 ∧ |relativeBall.y| < 150 ∧ ballLocation.z < 200
  let jumpNow := car.hasWheelContact = true ∧ distanceToTarget < 160 ∧ ballLocation.z < 120
  { controls :=
      { steer := steerFn car targetLocation2,
        throttle := max (min (speedError / 500) 1) (-1),
        boost := decide (speedError > 400 ∧ |angleToTarget| < 0.35 ∧ desiredSpeed > 1200),
        handbrake := decide (|angleToTarget| > 1.9 ∧ carVelocity.length < 1000),
        jump := decide jumpNow,
        pitch := if jumpNow then 0 else if lowAndCentered ∧ |angleToTarget| < 0.35 then -0.15 else 0 },
    steerTarget := some targetLocation2,
    chosenBoost := boostChoice,
    aimPoint := some targetLocation,
    speedInfo := some
      { distanceToTarget := distanceToTarget,
        angleToTarget := angleToTarget,
        timeRemaining := timeRemaining,
        desiredSpeed := desiredSpeed,
        forwardSpeed := forwardSpeed,
        speedError := speedError },
    state := s }

/-- get_output lines 53-66: the airborne-recovery branch and the kickoff
branch (with its front-flip trigger), falling through to the pipeline. -/
noncomputable def afterSequence (team : ℕ) (steerFn : CarState → Vec3 → ℝ)
    (pads : List BoostPad) (s : BotState) (p : Packet) : TickResult :=
  let car := p.car
  if car.hasWheelContact = false ∧ car.location.z < 200 then
    { controls :=
        { roll := -(car.orientation.right.z),
          pitch := -(car.orientation.forward.z),
          throttle := 0.5 },
      steerTarget := none, chosenBoost := none, aimPoint := none,
      speedInfo := none, state := s }
  else if isKickoff p then
    let st := steerFn car p.ballLocation
    if car.location.flat.dist p.ballLocation.flat < 1600 ∧ s.activeSequence = none then
      let fr := beginFrontFlip
      { controls := fr.1, steerTarget := some p.ballLocation, chosenBoost := none,
        aimPoint := none, speedInfo := none, state := fr.2 }
    else
      { controls := { steer := st, throttle := 1, boost := decide (|st| < 0.2) },
        steerTarget := some p.ballLocation, chosenBoost := none, aimPoint := none,
        speedInfo := none, state := s }
  else mainPipeline team steerFn pads s p

/-- get_output (bot.py lines 27-129): resume any unfinished active sequence
first (lines 38-41), falling through with the ticked sequence when the
sequence yields no command. -/
noncomputable def getOutput (team : ℕ) (steerFn : CarState → Vec3 → ℝ)
    (pads : List BoostPad) (s : BotState) (p : Packet) : TickResult :=
  match s.activeSequence with
  | some q =>
    if q.done = false then
      let tr := q.tick p.dt
      match tr.1 with
      | some c =>
        { controls := c, steerTarget := none, chosenBoost := none, aimPoint := none,
          speedInfo := none, state := ⟨some tr.2⟩ }
      | none => afterSequence team steerFn pads ⟨some tr.2⟩ p
    else afterSequence team steerFn pads s p
  | none => afterSequence team steerFn pads s p

/-- A canonical orientation for concrete runs: forward along +y, right along
+x, up along +z. -/
def oriY : Orientation := ⟨⟨0, 1, 0⟩, ⟨1, 0, 0⟩, ⟨0, 0, 1⟩⟩

/-- A steering collaborator that always reports a centered wheel. -/
def zeroSteer : CarState → Vec3 → ℝ := fun _ _ => 0

/-- A car at the field center, at rest, grounded, full boost. -/
def c4Car : CarState := ⟨⟨0, 0, 0⟩, ⟨0, 0, 0⟩, oriY, 100, true⟩

/-- A nine-slice trajectory whose first slice is too high (300) and whose
remaining slices are all low (93) and trivially reachable. -/
def c4Slices : List Slice :=
  [⟨⟨0, 0, 300⟩, 0⟩, ⟨⟨0, 0, 93⟩, 0.1⟩, ⟨⟨0, 0, 93⟩, 0.2⟩, ⟨⟨0, 0, 93⟩, 0.3⟩,
   ⟨⟨0, 0, 93⟩, 0.4⟩, ⟨⟨0, 0, 93⟩, 0.5⟩, ⟨⟨0, 0, 93⟩, 0.6⟩, ⟨⟨0, 0, 93⟩, 0.7⟩,
   ⟨⟨0, 0, 93⟩, 0.8⟩]

/-- A one-slice reachable trajectory. -/
def c4wSlices : List Slice := [⟨⟨0, 0, 93⟩, 1⟩]

/-- C1 counterexample packet: round active, ball stationary at (0, 49, 93),
inside the claim's |x| < 50, |y| < 50 box but not at the exact center. -/
def c1Packet : Packet :=
  { car := ⟨⟨0, 0, 17⟩, ⟨0, 0, 0⟩, oriY, 100, true⟩,
    ballLocation := ⟨0, 49, 93⟩, ballVelocity := ⟨0, 0, 0⟩,
    gameInfo := ⟨true, 0⟩, prediction := none, dt := 0 }

/-- A centered kickoff packet with the car far (3000) from the ball. -/
def kickoffFarPacket : Packet :=
  { car := ⟨⟨0, 3000, 17⟩, ⟨0, 0, 0⟩, oriY, 100, true⟩,
    ballLocation := ⟨0, 0, 93⟩, ballVelocity := ⟨0, 0, 0⟩,
    gameInfo := ⟨true, 0⟩, prediction := none, dt := 0 }

/-- A centered kickoff packet with the car close (100) to the ball. -/
def kickPacket (dt : ℝ) : Packet :=
  { car := ⟨⟨0, 100, 17⟩, ⟨0, 0, 0⟩, oriY, 100, true⟩,
    ballLocation := ⟨0, 0, 93⟩, ballVelocity := ⟨0, 0, 0⟩,
    gameInfo := ⟨true, 0⟩, prediction := none, dt := dt }

/-- A non-kickoff pipeline packet: round inactive, grounded car at rest at
the center, ball straight ahead at (0, 3000, 93), no prediction. -/
def pipePacket (boostAmount : ℝ) : Packet :=
  { car := ⟨⟨0, 0, 17⟩, ⟨0, 0, 0⟩, oriY, boostAmount, true⟩,
    ballLocation := ⟨0, 3000, 93⟩, ballVelocity := ⟨0, 0, 0⟩,
    gameInfo := ⟨false, 0⟩, prediction := none, dt := 0 }

/-- An active full-size pad 1000 in front of the car. -/
def padW : BoostPad := ⟨⟨0, 1000, 0⟩, true⟩

/-- An active full-size pad 5001 away from the car at the center. -/
def farPad : BoostPad := ⟨⟨0, 5001, 0⟩, true⟩

/-- An airborne packet: no wheel contact, height 17, round inactive. -/
def airPacket (dt : ℝ) : Packet :=
  { car := ⟨⟨0, 0, 17⟩, ⟨0, 0, 0⟩, oriY, 100, false⟩,
    ballLocation := ⟨0, 3000, 93⟩, ballVelocity := ⟨0, 0, 0⟩,
    gameInfo := ⟨false, 0⟩, prediction := none, dt := dt }

@[simp] lemma Vec3.sub_def (a b : Vec3) : a - b = ⟨a.x - b.x, a.y - b.y, a.z - b.z⟩ := rfl

@[simp] lemma Vec3.mk_x (a b c : ℝ) : (Vec3.mk a b c).x = a := rfl
@[simp] lemma Vec3.mk_y (a b c : ℝ) : (Vec3.mk a b c).y = b := rfl
@[simp] lemma Vec3.mk_z (a b c : ℝ) : (Vec3.mk a b c).z = c := rfl

@[simp] lemma Vec3.flat_mk (a b c : ℝ) : (Vec3.mk a b c).flat = ⟨a, b, 0⟩ := rfl

/-- Length of a vector supported on the y axis. -/
@[simp] lemma Vec3.length_0y0 (b : ℝ) : Vec3.length ⟨0, b, 0⟩ = |b| := by
  unfold Vec3.length
  rw [show (0 : ℝ) ^ 2 + b ^ 2 + 0 ^ 2 = b ^ 2 by ring]
  exact Real.sqrt_sq_eq_abs b

lemma Vec3.ext_iff {a b : Vec3} : a = b ↔ a.x = b.x ∧ a.y = b.y ∧ a.z = b.z := by
  constructor
  · rintro rfl; exact ⟨rfl, rfl, rfl⟩
  · rcases a with ⟨ax, ay, az⟩
    rcases b with ⟨bx, by', bz⟩
    rintro ⟨h1, h2, h3⟩
    simp_all

lemma Vec3.length_nonneg (v : Vec3) : 0 ≤ v.length := Real.sqrt_nonneg _

lemma Vec3.length_smul (c : ℝ) (v : Vec3) : (Vec3.smul c v).length = |c| * v.length := by
  unfold Vec3.length Vec3.smul
  rw [show (c * v.x) ^ 2 + (c * v.y) ^ 2 + (c * v.z) ^ 2
      = c ^ 2 * (v.x ^ 2 + v.y ^ 2 + v.z ^ 2) by ring]
  rw [Real.sqrt_mul (sq_nonneg c), Real.sqrt_sq_eq_abs]

lemma Vec3.rescale_length (v : Vec3) (newLen : ℝ) (hv : v.length ≠ 0) (hl : 0 ≤ newLen) :
    (v.rescale newLen).length = newLen := by
  unfold Vec3.rescale
  rw [Vec3.length_smul, abs_of_nonneg (div_nonneg hl (v.length_nonneg)),
    div_mul_cancel₀ _ hv]

lemma offsetDistanceFor_pos (ts : Option Slice) : 0 < offsetDistanceFor ts := by
  unfold offsetDistanceFor
  match ts with
  | none => norm_num
  | some s => dsimp only; split <;> norm_num

/-- C2 counterexample: the claim offsets by 320 exactly when the ball is
high; but bot.py uses 320 exactly when the chosen intercept slice's height
is BELOW 150 (a ball on the ground), and 240 otherwise.  With a low slice
(height 100) the aim point ends up 320 away from the target point, not the
claimed 240. -/
theorem C2_counterexample :
    (⟨⟨0, 1000, 100⟩, 3⟩ : Slice).location.z < 150 ∧
    computeApproach 0 (some ⟨⟨0, 1000, 100⟩, 3⟩) ⟨0, 1000, 100⟩ none = ⟨0, 680, 100⟩ ∧
    Vec3.dist (⟨0, 680, 100⟩ : Vec3) ⟨0, 1000, 100⟩ = 320 ∧ (320 : ℝ) ≠ 240 := by
  refine ⟨by norm_num, ?_, ?_, by norm_num⟩
  · unfold computeApproach approachGoalFor opponentGoal opponentGoalY offsetDistanceFor
    norm_num [Vec3.rescale, Vec3.smul, Vec3.length_0y0, Vec3.ext_iff]
  · unfold Vec3.dist
    norm_num [Vec3.length_0y0]

/-- C2 (amended): in the offense/shadow aim computation, whenever the
flattened direction from the target point to the relevant goal is
non-degenerate (length at least 1), the aim point is the target point
offset along that direction by exactly 320 when an intercept slice exists
with predicted height below 150 and by exactly 240 otherwise, and the aim
height is clamped to non-negative. -/
theorem C2_standoff_offset (team : ℕ) (ts : Option Slice) (pos : Vec3) (sh : Option Vec3)
    (h : 1 ≤ ((approachGoalFor team sh) - pos).flat.length) :
    (computeApproach team ts pos sh).x = pos.x -
      offsetDistanceFor ts / ((approachGoalFor team sh) - pos).flat.length *
        ((approachGoalFor team sh) - pos).flat.x ∧
    (computeApproach team ts pos sh).y = pos.y -
      offsetDistanceFor ts / ((approachGoalFor team sh) - pos).flat.length *
        ((approachGoalFor team sh) - pos).flat.y ∧
    (computeApproach team ts pos sh).z = max 0 pos.z ∧
    Vec3.dist (computeApproach team ts pos sh).flat pos.flat = offsetDistanceFor ts := by
  have hpos := offsetDistanceFor_pos ts
  have hL : ((approachGoalFor team sh) - pos).flat.length ≠ 0 := by positivity
  have hr : computeApproach team ts pos sh =
      ⟨pos.x - offsetDistanceFor ts / ((approachGoalFor team sh) - pos).flat.length *
          ((approachGoalFor team sh) - pos).flat.x,
        pos.y - offsetDistanceFor ts / ((approachGoalFor team sh) - pos).flat.length *
          ((approachGoalFor team sh) - pos).flat.y,
        max 0 pos.z⟩ := by
    unfold computeApproach
    dsimp only
    rw [if_neg (not_lt.mpr h)]
    rw [Vec3.ext_iff]
    refine ⟨rfl, rfl, ?_⟩
    simp [Vec3.rescale, Vec3.smul, Vec3.flat]
  refine ⟨by rw [hr], by rw [hr], by rw [hr], ?_⟩
  rw [hr]
  have hdiff : (Vec3.mk
        (pos.x - offsetDistanceFor ts / ((approachGoalFor team sh) - pos).flat.length *
          ((approachGoalFor team sh) - pos).flat.x)
        (pos.y - offsetDistanceFor ts / ((approachGoalFor team sh) - pos).flat.length *
          ((approachGoalFor team sh) - pos).flat.y)
        (max 0 pos.z)).flat - pos.flat =
      Vec3.smul (-(offsetDistanceFor ts / ((approachGoalFor team sh) - pos).flat.length))
        ((approachGoalFor team sh) - pos).flat := by
    rw [Vec3.ext_iff]
    refine ⟨by simp [Vec3.flat, Vec3.smul], by simp [Vec3.flat, Vec3.smul], ?_⟩
    simp [Vec3.flat, Vec3.smul]
  unfold Vec3.dist
  rw [hdiff, Vec3.length_smul, abs_neg,
    abs_of_nonneg (div_nonneg hpos.le (Vec3.length_nonneg _)), div_mul_cancel₀ _ hL]

/-- C2 witness: the amended stand-off property applied at a concrete input
(no slice, target point 3000 before the attacked goal). -/
theorem C2_standoff_offset_witness :
    (1 : ℝ) ≤ ((approachGoalFor 0 none) - ⟨0, 3000, 93⟩).flat.length ∧
    Vec3.dist (computeApproach 0 none ⟨0, 3000, 93⟩ none).flat (⟨0, 3000, 93⟩ : Vec3).flat =
      offsetDistanceFor none := by
  have h : (1 : ℝ) ≤ ((approachGoalFor 0 none) - ⟨0, 3000, 93⟩).flat.length := by
    unfold approachGoalFor opponentGoal opponentGoalY
    norm_num [Vec3.length_0y0]
  exact ⟨h, (C2_standoff_offset 0 none ⟨0, 3000, 93⟩ none h).2.2.2⟩

/-- C9 (confirmed): when the flattened direction from the target point to
the relevant goal has length below 1, the aim computation does not
degenerate: the code substitutes the fixed lateral unit direction
(0, 1, 0) for team 0 and (0, -1, 0) otherwise, so the aim point is offset
from the target point along the y axis by the full stand-off distance and
never collapses onto the target point. -/
theorem C9_degenerate_fallback (team : ℕ) (ts : Option Slice) (pos : Vec3)
    (sh : Option Vec3)
    (h : ((approachGoalFor team sh) - pos).flat.length < 1) :
    (computeApproach team ts pos sh).x = pos.x ∧
    (computeApproach team ts pos sh).y =
      pos.y - (if team = 0 then 1 else -1) * offsetDistanceFor ts ∧
    (computeApproach team ts pos sh).z = max 0 pos.z ∧
    (computeApproach team ts pos sh).y ≠ pos.y := by
  have hpos := offsetDistanceFor_pos ts
  have hsgn : (if opponentGoalY team > 0 then (1 : ℝ) else -1) =
      (if team = 0 then (1 : ℝ) else -1) := by
    unfold opponentGoalY
    by_cases ht : team = 0 <;> simp [ht]
  have hr : computeApproach team ts pos sh =
      ⟨pos.x, pos.y - (if team = 0 then 1 else -1) * offsetDistanceFor ts, max 0 pos.z⟩ := by
    unfold computeApproach
    dsimp only
    rw [if_pos h, hsgn]
    rw [Vec3.ext_iff]
    by_cases ht : team = 0 <;>
      simp [ht, Vec3.rescale, Vec3.smul, Vec3.length_0y0, Vec3.flat]
  refine ⟨by rw [hr], by rw [hr], by rw [hr], ?_⟩
  rw [hr]
  by_cases ht : team = 0 <;> simp [ht] <;> intro hc <;> linarith

/-- C9 witness: the fallback applied where the target point sits at the
attacked goal center (horizontal distance 0 < 1). -/
theorem C9_degenerate_fallback_witness :
    ((approachGoalFor 0 none) - ⟨0, 5120, 50⟩).flat.length < 1 ∧
    (computeApproach 0 none ⟨0, 5120, 50⟩ none).y =
      5120 - (if (0 : ℕ) = 0 then (1 : ℝ) else -1) * offsetDistanceFor none := by
  have h : ((approachGoalFor 0 none) - ⟨0, 5120, 50⟩).flat.length < 1 := by
    unfold approachGoalFor opponentGoal opponentGoalY
    norm_num [Vec3.length_0y0]
  exact ⟨h, (C9_degenerate_fallback 0 none ⟨0, 5120, 50⟩ none h).2.1⟩

/-- C5 counterexample: the claim says the desired speed is the distance
divided by the time budget (clamped); but bot.py divides by
max(time_remaining, 0.1), so for a time budget of 1/20 s and distance 100
the code yields 1000 while the claimed formula yields 2000. -/
theorem C5_counterexample :
    chooseDesiredSpeed 100 0 (some (1 / 20)) = 1000 ∧
    max 700 (min ((100 : ℝ) / (1 / 20)) 2200) = 2000 ∧ (1000 : ℝ) ≠ 2000 := by
  refine ⟨?_, by norm_num, by norm_num⟩
  unfold chooseDesiredSpeed
  norm_num

/-- C5 (amended): desired-speed law of choose_desired_speed.  When the time
budget t is known and positive the desired speed is distance divided by
max(t, 0.1), clamped to [700, 2200]; a known non-positive budget behaves as
an absent one; with no budget the speed is 1900 if near-aligned else 1500,
and at distance below 800 it is distance times 1.2 with a floor of 700. -/
theorem C5_desired_speed_law (d a t : ℝ) :
    (0 < t → chooseDesiredSpeed d a (some t) = max 700 (min (d / max t 0.1) 2200)) ∧
    (¬ 0 < t → chooseDesiredSpeed d a (some t) = chooseDesiredSpeed d a none) ∧
    (800 ≤ d → chooseDesiredSpeed d a none = (if |a| < 0.25 then 1900 else 1500)) ∧
    (d < 800 → chooseDesiredSpeed d a none = max 700 (d * 1.2)) := by
  refine ⟨fun ht => ?_, fun ht => ?_, fun hd => ?_, fun hd => ?_⟩
  · simp only [chooseDesiredSpeed]
    rw [if_pos ht]
  · simp only [chooseDesiredSpeed]
    rw [if_neg ht]
  · simp only [chooseDesiredSpeed, desiredSpeedDefault]
    rw [if_neg (by linarith)]
  · simp only [chooseDesiredSpeed, desiredSpeedDefault]
    rw [if_pos hd]

/-- C5 witness: the amended law applied at concrete inputs. -/
theorem C5_desired_speed_law_witness :
    chooseDesiredSpeed 4400 0 (some 2) = max 700 (min ((4400 : ℝ) / max 2 0.1) 2200) ∧
    chooseDesiredSpeed 900 0 none = (if |(0 : ℝ)| < 0.25 then 1900 else 1500) ∧
    chooseDesiredSpeed 100 0 none = max 700 ((100 : ℝ) * 1.2) :=
  ⟨(C5_desired_speed_law 4400 0 2).1 (by norm_num),
   (C5_desired_speed_law 900 0 2).2.2.1 (by norm_num),
   (C5_desired_speed_law 100 0 2).2.2.2 (by norm_num)⟩

/-- The reachability condition of the scan loop: low enough, and the travel
estimate beats the time available plus slack. -/
lemma scanSlices_spec (slices : List Slice) (cl : Vec3) (cs t : ℝ) :
    ∀ (n i : ℕ) (s : Slice), slices.length - i ≤ n →
      scanSlices slices cl cs t i = some s →
      s.location.z ≤ 250 ∧
      ∃ k, i ≤ k ∧ (k - i) % 8 = 0 ∧ slices.get? k = some s ∧
        estimateTravelTime cl cs s.location < s.gameSeconds - t + 0.1 ∧
        ∀ j s2, i ≤ j → j < k → (j - i) % 8 = 0 → slices.get? j = some s2 →
          ¬ (s2.location.z ≤ 250 ∧
             estimateTravelTime cl cs s2.location < s2.gameSeconds - t + 0.1) := by
  intro n
  induction n with
  | zero =>
    intro i s hn h
    rw [scanSlices] at h
    rw [dif_neg (by omega)] at h
    exact absurd h (by simp)
  | succ n ih =>
    intro i s hn h
    rw [scanSlices] at h
    by_cases hi : i < slices.length
    · rw [dif_pos hi] at h
      dsimp only at h
      by_cases hz : (slices.get ⟨i, hi⟩).location.z > 250
      · rw [if_pos hz] at h
        obtain ⟨h1, k, hk1, hk2, hk3, hk4, hk5⟩ := ih (i + 8) s (by omega) h
        refine ⟨h1, k, by omega, by omega, hk3, hk4, ?_⟩
        intro j s2 hij hjk hmod hget
        rcases eq_or_lt_of_le hij with rfl | hlt
        · rw [List.get?_eq_get hi] at hget
          injection hget with hget
          rintro ⟨hz2, _⟩
          rw [hget] at hz
          linarith
        · exact hk5 j s2 (by omega) hjk (by omega) hget
      · rw [if_neg hz] at h
        push_neg at hz
        by_cases hr : estimateTravelTime cl cs (slices.get ⟨i, hi⟩).location <
            (slices.get ⟨i, hi⟩).gameSeconds - t + 0.1
        · rw [if_pos hr] at h
          injection h with h
          subst h
          refine ⟨hz, i, le_refl i, by omega, List.get?_eq_get hi, hr, ?_⟩
          intro j s2 hij hjk _ _
          omega
        · rw [if_neg hr] at h
          obtain ⟨h1, k, hk1, hk2, hk3, hk4, hk5⟩ := ih (i + 8) s (by omega) h
          refine ⟨h1, k, by omega, by omega, hk3, hk4, ?_⟩
          intro j s2 hij hjk hmod hget
          rcases eq_or_lt_of_le hij with rfl | hlt
          · rw [List.get?_eq_get hi] at hget
            injection hget with hget
            rintro ⟨_, h2⟩
            rw [hget] at hr
            exact hr h2
          · exact hk5 j s2 (by omega) hjk (by omega) hget
    · rw [dif_neg hi] at h
      exact absurd h (by simp)

/-- C4 counterexample: the selector's stride-8 scan skips trajectory
samples, so an earlier-in-time reachable sample can be passed over.  On a
trajectory whose index-0 slice is above the height ceiling and whose
index-1 slice is low and reachable, the code returns the index-8 slice
(timestamp 0.8) even though the reachable index-1 slice (timestamp 0.1)
exists earlier in the trajectory. -/
theorem C4_counterexample :
    selectInterceptSlice (some c4Slices) c4Car 0 = some ⟨⟨0, 0, 93⟩, 0.8⟩ ∧
    c4Slices.get? 1 = some ⟨⟨0, 0, 93⟩, 0.1⟩ ∧
    (⟨⟨0, 0, 93⟩, (0.1 : ℝ)⟩ : Slice).location.z ≤ 250 ∧
    estimateTravelTime c4Car.location c4Car.velocity.length ⟨0, 0, 93⟩ <
      0.1 - 0 + 0.1 ∧
    (0.1 : ℝ) < 0.8 := by
  have htravel : estimateTravelTime c4Car.location c4Car.velocity.length ⟨0, 0, 93⟩ = 0 := by
    unfold estimateTravelTime c4Car
    norm_num [Vec3.dist, Vec3.flat]
  refine ⟨?_, rfl, by norm_num, by rw [htravel]; norm_num, by norm_num⟩
  have hsel : selectInterceptSlice (some c4Slices) c4Car 0 =
      scanSlices c4Slices c4Car.location c4Car.velocity.length 0 0 := rfl
  rw [hsel]
  rw [scanSlices, dif_pos (by norm_num [c4Slices])]
  norm_num [c4Slices, List.get]
  rw [scanSlices, dif_pos (by norm_num [c4Slices])]
  norm_num [c4Slices, List.get]
  intro hc
  rw [htravel] at hc
  norm_num at hc

/-- C4 (amended): restricted to the samples the stride-8 scan actually
visits, the postcondition holds: a returned sample's height never exceeds
the 250 ceiling, it satisfies the travel-time reachability test, and no
visited sample at an earlier stride index is both below the ceiling and
reachable (monotonic-earliest over the scanned subsequence). -/
theorem C4_selector_postcondition (prediction : Option (List Slice)) (car : CarState)
    (t : ℝ) (s : Slice) (h : selectInterceptSlice prediction car t = some s) :
    s.location.z ≤ 250 ∧
    ∃ slices k, prediction = some slices ∧ k % 8 = 0 ∧ slices.get? k = some s ∧
      estimateTravelTime car.location car.velocity.length s.location <
        s.gameSeconds - t + 0.1 ∧
      ∀ j s2, j % 8 = 0 → j < k → slices.get? j = some s2 →
        ¬ (s2.location.z ≤ 250 ∧
           estimateTravelTime car.location car.velocity.length s2.location <
             s2.gameSeconds - t + 0.1) := by
  match hp : prediction with
  | none => exact absurd h (by simp [selectInterceptSlice])
  | some slices =>
    have h2 : scanSlices slices car.location car.velocity.length t 0 = some s := h
    obtain ⟨h1, k, _, hk2, hk3, hk4, hk5⟩ :=
      scanSlices_spec slices car.location car.velocity.length t slices.length 0 s
        (by omega) h2
    exact ⟨h1, slices, k, rfl, by omega, hk3, hk4,
      fun j s2 hj hjk hget => hk5 j s2 (by omega) hjk (by omega) hget⟩

/-- C4 witness: the amended postcondition applied to a one-slice reachable
trajectory. -/
theorem C4_selector_postcondition_witness :
    selectInterceptSlice (some c4wSlices) c4Car 0 = some ⟨⟨0, 0, 93⟩, 1⟩ ∧
    ((⟨⟨0, 0, 93⟩, (1 : ℝ)⟩ : Slice).location.z ≤ 250 ∧
     ∃ slices k, (some c4wSlices : Option (List Slice)) = some slices ∧ k % 8 = 0 ∧
       slices.get? k = some ⟨⟨0, 0, 93⟩, 1⟩ ∧
       estimateTravelTime c4Car.location c4Car.velocity.length
           (⟨⟨0, 0, 93⟩, (1 : ℝ)⟩ : Slice).location <
         (⟨⟨0, 0, 93⟩, (1 : ℝ)⟩ : Slice).gameSeconds - 0 + 0.1 ∧
       ∀ j s2, j % 8 = 0 → j < k → slices.get? j = some s2 →
         ¬ (s2.location.z ≤ 250 ∧
            estimateTravelTime c4Car.location c4Car.velocity.length s2.location <
              s2.gameSeconds - 0 + 0.1)) := by
  have htravel : estimateTravelTime c4Car.location c4Car.velocity.length ⟨0, 0, 93⟩ = 0 := by
    unfold estimateTravelTime c4Car
    norm_num [Vec3.dist, Vec3.flat]
  have h : selectInterceptSlice (some c4wSlices) c4Car 0 = some ⟨⟨0, 0, 93⟩, 1⟩ := by
    have hsel : selectInterceptSlice (some c4wSlices) c4Car 0 =
        scanSlices c4wSlices c4Car.location c4Car.velocity.length 0 0 := rfl
    rw [hsel]
    rw [scanSlices, dif_pos (by norm_num [c4wSlices])]
    norm_num [c4wSlices, List.get]
    intro hc
    rw [htravel] at hc
    norm_num at hc
  exact ⟨h, C4_selector_postcondition (some c4wSlices) c4Car 0 _ h⟩

lemma getOutput_noSeq (team : ℕ) (steerFn : CarState → Vec3 → ℝ) (pads : List BoostPad)
    (p : Packet) :
    getOutput team steerFn pads ⟨none⟩ p = afterSequence team steerFn pads ⟨none⟩ p := rfl

/-- A stationary ball never triggers the defensive shadow. -/
lemma shadow_zeroVel (ball g : Vec3) : chooseShadowPosition ball ⟨0, 0, 0⟩ g = none := by
  unfold chooseShadowPosition
  rw [if_neg]
  rintro ⟨h, -⟩
  simp at h

lemma atan2_zero_pos (x : ℝ) (hx : 0 < x) : atan2 0 x = 0 := by
  unfold atan2
  rw [if_pos hx, zero_div, Real.arctan_zero]

/-- The offense aim for a ball at (0, 3000, 93) with no slice, team 0. -/
lemma approach3000 : computeApproach 0 none ⟨0, 3000, 93⟩ none = ⟨0, 2760, 93⟩ := by
  unfold computeApproach approachGoalFor opponentGoal opponentGoalY offsetDistanceFor
  norm_num [Vec3.rescale, Vec3.smul, Vec3.ext_iff]

/-- The offense aim for a ball at (0, 49, 93) with no slice, team 0. -/
lemma approach49 : computeApproach 0 none ⟨0, 49, 93⟩ none = ⟨0, -191, 93⟩ := by
  unfold computeApproach approachGoalFor opponentGoal opponentGoalY offsetDistanceFor
  norm_num [Vec3.rescale, Vec3.smul, Vec3.ext_iff]

/-- Full evaluation of the far-kickoff tick: the kickoff branch steers at
the ball with full throttle and boosts because the wheel is centered. -/
lemma kickoffFar_eval : getOutput 0 zeroSteer [] ⟨none⟩ kickoffFarPacket =
    { controls := { steer := 0, throttle := 1, boost := true },
      steerTarget := some ⟨0, 0, 93⟩, chosenBoost := none, aimPoint := none,
      speedInfo := none, state := ⟨none⟩ } := by
  have hd : kickoffFarPacket.car.location.flat.dist kickoffFarPacket.ballLocation.flat
      = 3000 := by
    norm_num [kickoffFarPacket, Vec3.dist, Vec3.flat]
  rw [getOutput_noSeq]
  unfold afterSequence
  rw [if_neg (by simp [kickoffFarPacket])]
  rw [if_pos (show isKickoff kickoffFarPacket from ⟨rfl, rfl, rfl⟩)]
  dsimp only
  rw [if_neg (by rintro ⟨hlt, -⟩; rw [hd] at hlt; norm_num at hlt)]
  simp [zeroSteer, kickoffFarPacket]
  norm_num

/-- On any tick that falls through to the airborne/kickoff/pipeline code,
boost together with a recorded speed-controller run implies the three
threshold conditions (the boost decision of bot.py line 116). -/
lemma afterSequence_boost_conditions (team : ℕ) (steerFn : CarState → Vec3 → ℝ)
    (pads : List BoostPad) (s : BotState) (p : Packet) (info : SpeedInfo)
    (hinfo : (afterSequence team steerFn pads s p).speedInfo = some info)
    (hboost : (afterSequence team steerFn pads s p).controls.boost = true) :
    info.desiredSpeed > 1200 ∧ |info.angleToTarget| < 0.35 ∧ info.speedError > 400 := by
  unfold afterSequence at hinfo hboost
  dsimp only at hinfo hboost
  split_ifs at hinfo hboost with h1 h2
  unfold mainPipeline at hinfo hboost
  dsimp only at hinfo hboost
  rw [Option.some.injEq] at hinfo
  subst hinfo
  rw [decide_eq_true_eq] at hboost
  exact ⟨hboost.2.2, hboost.2.1, hboost.1⟩

/-- Full evaluation of a plain pipeline tick (full boost, no pads): the bot
aims at the stand-off point 240 short of the ball and boosts. -/
lemma pipePlain_eval : getOutput 0 zeroSteer [] ⟨none⟩ (pipePacket 100) =
    { controls :=
        { steer := 0, throttle := 1, pitch := -0.15, roll := 0,
          jump := false, boost := true, handbrake := false },
      steerTarget := some ⟨0, 2760, 93⟩, chosenBoost := none,
      aimPoint := some ⟨0, 2760, 93⟩,
      speedInfo := some ⟨2760, 0, none, 1900, 0, 1900⟩, state := ⟨none⟩ } := by
  rw [getOutput_noSeq]
  unfold afterSequence
  rw [if_neg (by simp [pipePacket])]
  rw [if_neg (by simp [isKickoff, pipePacket])]
  unfold mainPipeline
  norm_num [pipePacket, selectInterceptSlice, shadow_zeroVel, approach3000,
    relativeLocation, oriY, Vec3.dot, Vec3.dist, atan2_zero_pos,
    chooseDesiredSpeed, desiredSpeedDefault, zeroSteer, isKickoff,
    decide_eq_true_eq, decide_eq_false_iff_not,
    TickResult.mk.injEq, Controls.mk.injEq, SpeedInfo.mk.injEq, Vec3.ext_iff]

/-- C1 counterexample: with the ball stationary at (0, 49, 93) — inside the
claimed |x| < 50, |y| < 50 kickoff box — and the round active, the code's
kickoff test (which demands x = 0 and y = 0 exactly) fails, the offense rule
runs, and the chosen target is the stand-off point (0, -191, 93), not the
ball location. -/
theorem C1_counterexample :
    (c1Packet.gameInfo.isRoundActive = true ∧ c1Packet.ballVelocity = ⟨0, 0, 0⟩ ∧
      |c1Packet.ballLocation.x| < 50 ∧ |c1Packet.ballLocation.y| < 50) ∧
    (getOutput 0 zeroSteer [] ⟨none⟩ c1Packet).steerTarget ≠ some c1Packet.ballLocation := by
  refine ⟨⟨rfl, rfl, by norm_num [c1Packet], by norm_num [c1Packet]⟩, ?_⟩
  have hst : (getOutput 0 zeroSteer [] ⟨none⟩ c1Packet).steerTarget = some ⟨0, -191, 93⟩ := by
    rw [getOutput_noSeq]
    unfold afterSequence
    rw [if_neg (by simp [c1Packet])]
    rw [if_neg (by simp [isKickoff, c1Packet])]
    unfold mainPipeline
    norm_num [c1Packet, selectInterceptSlice, shadow_zeroVel, approach49, isKickoff]
  rw [hst]
  simp [c1Packet, Vec3.ext_iff]
  norm_num

/-- C1 (amended): the kickoff rule fires exactly when the round is active
and the ball sits at x = 0, y = 0; on any tick not consumed by an active
sequence or the airborne-recovery branch, that condition makes the chosen
target the ball location regardless of boost level, stationarity, or shadow
conditions. -/
theorem C1_kickoff_target (team : ℕ) (steerFn : CarState → Vec3 → ℝ)
    (pads : List BoostPad) (s : BotState) (p : Packet)
    (hseq : s.activeSequence = none) (hw : p.car.hasWheelContact = true)
    (hact : p.gameInfo.isRoundActive = true) (hx : p.ballLocation.x = 0)
    (hy : p.ballLocation.y = 0) :
    (getOutput team steerFn pads s p).steerTarget = some p.ballLocation := by
  have hs : s = ⟨none⟩ := by
    rcases s with ⟨a⟩
    have ha : a = none := hseq
    rw [ha]
  subst hs
  rw [getOutput_noSeq]
  unfold afterSequence
  rw [if_neg (by simp [hw])]
  rw [if_pos (show isKickoff p from ⟨hact, hx, hy⟩)]
  dsimp only
  by_cases hclose : p.car.location.flat.dist p.ballLocation.flat < 1600 ∧
      (⟨none⟩ : BotState).activeSequence = none
  · rw [if_pos hclose]
  · rw [if_neg hclose]

/-- C1 witness: the amended kickoff-dominance at the far-kickoff packet. -/
theorem C1_kickoff_target_witness :
    (getOutput 0 zeroSteer [] ⟨none⟩ kickoffFarPacket).steerTarget =
      some kickoffFarPacket.ballLocation :=
  C1_kickoff_target 0 zeroSteer [] ⟨none⟩ kickoffFarPacket rfl rfl rfl rfl rfl

/-- C3 counterexample: on a kickoff tick the returned command boosts purely
because the wheel is centered (|steer| < 0.2); the speed controller never
runs, so boost is asserted while the claim's three threshold conditions are
not satisfied (there are no speed-controller quantities at all). -/
theorem C3_counterexample :
    ¬ ((getOutput 0 zeroSteer [] ⟨none⟩ kickoffFarPacket).controls.boost = true →
       ∃ info, (getOutput 0 zeroSteer [] ⟨none⟩ kickoffFarPacket).speedInfo = some info ∧
         info.desiredSpeed > 1200 ∧ |info.angleToTarget| < 0.35 ∧
         info.speedError > 400) := by
  intro hcl
  obtain ⟨info, hinfo, -⟩ := hcl (by rw [kickoffFar_eval])
  rw [kickoffFar_eval] at hinfo
  exact absurd hinfo (by simp)

/-- C3 (amended): on every tick on which the speed controller actually runs
(the non-kickoff pipeline), the returned command asserts boost only if
desired_speed > 1200, |heading error| < 0.35, and the speed deficit exceeds
400; kickoff ticks instead boost on wheel-centering alone. -/
theorem C3_boost_conditions (team : ℕ) (steerFn : CarState → Vec3 → ℝ)
    (pads : List BoostPad) (s : BotState) (p : Packet) (info : SpeedInfo)
    (hinfo : (getOutput team steerFn pads s p).speedInfo = some info)
    (hboost : (getOutput team steerFn pads s p).controls.boost = true) :
    info.desiredSpeed > 1200 ∧ |info.angleToTarget| < 0.35 ∧ info.speedError > 400 := by
  unfold getOutput at hinfo hboost
  rcases hs : s.activeSequence with _ | q
  · rw [hs] at hinfo hboost
    dsimp only at hinfo hboost
    exact afterSequence_boost_conditions _ _ _ _ _ _ hinfo hboost
  · rw [hs] at hinfo hboost
    dsimp only at hinfo hboost
    by_cases hdone : q.done = false
    · rw [if_pos hdone] at hinfo hboost
      rcases ht : (q.tick p.dt).1 with _ | c
      · rw [ht] at hinfo hboost
        dsimp only at hinfo hboost
        exact afterSequence_boost_conditions _ _ _ _ _ _ hinfo hboost
      · rw [ht] at hinfo hboost
        dsimp only at hinfo hboost
        exact absurd hinfo (by simp)
    · rw [if_neg hdone] at hinfo hboost
      exact afterSequence_boost_conditions _ _ _ _ _ _ hinfo hboost

/-- C3 witness: a pipeline tick on which the boost decision is true, with
the three conditions recovered through the amended theorem. -/
theorem C3_boost_conditions_witness :
    (getOutput 0 zeroSteer [] ⟨none⟩ (pipePacket 100)).speedInfo =
      some ⟨2760, 0, none, 1900, 0, 1900⟩ ∧
    (getOutput 0 zeroSteer [] ⟨none⟩ (pipePacket 100)).controls.boost = true ∧
    ((1900 : ℝ) > 1200 ∧ |(0 : ℝ)| < 0.35 ∧ (1900 : ℝ) > 400) := by
  have h1 : (getOutput 0 zeroSteer [] ⟨none⟩ (pipePacket 100)).speedInfo =
      some ⟨2760, 0, none, 1900, 0, 1900⟩ := by rw [pipePlain_eval]
  have h2 : (getOutput 0 zeroSteer [] ⟨none⟩ (pipePacket 100)).controls.boost = true := by
    rw [pipePlain_eval]
  exact ⟨h1, h2, C3_boost_conditions 0 zeroSteer [] ⟨none⟩ (pipePacket 100)
    ⟨2760, 0, none, 1900, 0, 1900⟩ h1 h2⟩

/-- beginFrontFlip installs the fresh flip sequence and returns the jump
command of its first step. -/
lemma beginFrontFlip_eval :
    beginFrontFlip = ({ jump := true }, ⟨some ⟨frontFlipSteps, 0, false⟩⟩) := by
  unfold beginFrontFlip Sequence.tick
  norm_num [stepAt, frontFlipSteps]

/-- The flip sequence is spent after 5 seconds of elapsed time. -/
lemma flipTick5_eval : Sequence.tick ⟨frontFlipSteps, 0, false⟩ 5 =
    (none, ⟨frontFlipSteps, 5, true⟩) := by
  unfold Sequence.tick
  norm_num [stepAt, frontFlipSteps]

/-- Whatever branch runs after the sequence check, a present active sequence
is never replaced: the state passes through unchanged. -/
lemma afterSequence_state_some (team : ℕ) (steerFn : CarState → Vec3 → ℝ)
    (pads : List BoostPad) (q : Sequence) (p : Packet) :
    (afterSequence team steerFn pads ⟨some q⟩ p).state = ⟨some q⟩ := by
  unfold afterSequence
  dsimp only
  split_ifs with h1 h2 h3
  all_goals try rfl
  all_goals exact h3.2.elim

/-- Full evaluation of the close-kickoff tick from a clean state: the bot
begins the front flip. -/
lemma kickClose_eval : getOutput 0 zeroSteer [] ⟨none⟩ (kickPacket 0) =
    { controls := { jump := true }, steerTarget := some ⟨0, 0, 93⟩,
      chosenBoost := none, aimPoint := none, speedInfo := none,
      state := ⟨some ⟨frontFlipSteps, 0, false⟩⟩ } := by
  have hd : (kickPacket 0).car.location.flat.dist (kickPacket 0).ballLocation.flat
      = 100 := by
    norm_num [kickPacket, Vec3.dist, Vec3.flat]
  rw [getOutput_noSeq]
  unfold afterSequence
  rw [if_neg (by simp [kickPacket])]
  rw [if_pos (show isKickoff (kickPacket 0) from ⟨rfl, rfl, rfl⟩)]
  dsimp only
  rw [if_pos ⟨by rw [hd]; norm_num, rfl⟩]
  rw [beginFrontFlip_eval]
  rfl

/-- C10 counterexample: with the front-flip sequence active, an airborne
low snapshot is answered by the sequence's step command (jump, throttle 0),
not by the airborne-recovery branch (throttle 0.5): the active-sequence
check precedes the recovery branch. -/
theorem C10_counterexample :
    ((airPacket 0.01).car.hasWheelContact = false ∧
      (airPacket 0.01).car.location.z < 200) ∧
    (getOutput 0 zeroSteer [] ⟨some ⟨frontFlipSteps, 0, false⟩⟩
        (airPacket 0.01)).controls.throttle = 0 ∧
    (getOutput 0 zeroSteer [] ⟨some ⟨frontFlipSteps, 0, false⟩⟩
        (airPacket 0.01)).controls.jump = true ∧
    (0 : ℝ) ≠ 0.5 := by
  have ht : Sequence.tick ⟨frontFlipSteps, 0, false⟩ (airPacket 0.01).dt =
      (some { jump := true }, ⟨frontFlipSteps, 0.01, false⟩) := by
    unfold Sequence.tick
    norm_num [stepAt, frontFlipSteps, airPacket]
  have hout : getOutput 0 zeroSteer [] ⟨some ⟨frontFlipSteps, 0, false⟩⟩ (airPacket 0.01) =
      { controls := { jump := true }, steerTarget := none, chosenBoost := none,
        aimPoint := none, speedInfo := none,
        state := ⟨some ⟨frontFlipSteps, 0.01, false⟩⟩ } := by
    unfold getOutput
    dsimp only
    rw [if_pos rfl, ht]
  refine ⟨⟨rfl, by norm_num [airPacket]⟩, ?_, ?_, by norm_num⟩
  · rw [hout]
  · rw [hout]

/-- C10 (amended): on any tick on which no maneuver sequence is in progress,
a snapshot with no wheel contact and height below 200 is answered
immediately by the airborne-recovery branch: roll is the negated z of the
right basis vector, pitch the negated z of the forward basis vector,
throttle 0.5, and none of the kickoff/interception/target/speed logic runs
(no steering target, no boost-pad choice, no speed-controller record). -/
theorem C10_airborne_recovery (team : ℕ) (steerFn : CarState → Vec3 → ℝ)
    (pads : List BoostPad) (s : BotState) (p : Packet)
    (hseq : s.activeSequence = none)
    (hw : p.car.hasWheelContact = false) (hz : p.car.location.z < 200) :
    getOutput team steerFn pads s p =
      { controls :=
          { roll := -(p.car.orientation.right.z),
            pitch := -(p.car.orientation.forward.z), throttle := 0.5 },
        steerTarget := none, chosenBoost := none, aimPoint := none,
        speedInfo := none, state := s } := by
  have hs : s = ⟨none⟩ := by
    rcases s with ⟨a⟩
    have ha : a = none := hseq
    rw [ha]
  subst hs
  rw [getOutput_noSeq]
  unfold afterSequence
  rw [if_pos ⟨hw, hz⟩]

/-- C10 witness: the amended airborne recovery at a concrete airborne
packet. -/
theorem C10_airborne_recovery_witness :
    getOutput 0 zeroSteer [] ⟨none⟩ (airPacket 5) =
      { controls :=
          { roll := -((airPacket 5).car.orientation.right.z),
            pitch := -((airPacket 5).car.orientation.forward.z), throttle := 0.5 },
        steerTarget := none, chosenBoost := none, aimPoint := none,
        speedInfo := none, state := ⟨none⟩ } :=
  C10_airborne_recovery 0 zeroSteer [] ⟨none⟩ (airPacket 5) rfl rfl
    (by norm_num [airPacket])

/-- C7 counterexample: a three-tick trace.  On the first centered kickoff
the close car triggers the flip; five seconds later (airborne tick) the
sequence runs out and is marked done but remains installed; on a subsequent
centered kickoff with the car close to the ball, no flip is triggered —
the returned command has jump false and the spent sequence is left in
place — because the trigger requires the sequence slot to be exactly None,
which it never is again after the first flip. -/
theorem C7_counterexample :
    (getOutput 0 zeroSteer [] ⟨none⟩ (kickPacket 0)).controls.jump = true ∧
    (getOutput 0 zeroSteer [] ⟨none⟩ (kickPacket 0)).state =
      ⟨some ⟨frontFlipSteps, 0, false⟩⟩ ∧
    (getOutput 0 zeroSteer [] ⟨some ⟨frontFlipSteps, 0, false⟩⟩ (airPacket 5)).state =
      ⟨some ⟨frontFlipSteps, 5, true⟩⟩ ∧
    (isKickoff (kickPacket 1) ∧
      (kickPacket 1).car.location.flat.dist (kickPacket 1).ballLocation.flat < 1600) ∧
    (getOutput 0 zeroSteer [] ⟨some ⟨frontFlipSteps, 5, true⟩⟩
        (kickPacket 1)).controls.jump = false ∧
    (getOutput 0 zeroSteer [] ⟨some ⟨frontFlipSteps, 5, true⟩⟩ (kickPacket 1)).state =
      ⟨some ⟨frontFlipSteps, 5, true⟩⟩ := by
  have hd1 : (kickPacket 1).car.location.flat.dist (kickPacket 1).ballLocation.flat
      = 100 := by
    norm_num [kickPacket, Vec3.dist, Vec3.flat]
  have h2 : (getOutput 0 zeroSteer [] ⟨some ⟨frontFlipSteps, 0, false⟩⟩
      (airPacket 5)).state = ⟨some ⟨frontFlipSteps, 5, true⟩⟩ := by
    have hdt : (airPacket 5).dt = (5 : ℝ) := rfl
    unfold getOutput
    dsimp only
    rw [if_pos rfl, hdt, flipTick5_eval]
    dsimp only
    exact afterSequence_state_some 0 zeroSteer [] ⟨frontFlipSteps, 5, true⟩ (airPacket 5)
  have h3 : getOutput 0 zeroSteer [] ⟨some ⟨frontFlipSteps, 5, true⟩⟩ (kickPacket 1) =
      { controls := { steer := 0, throttle := 1, boost := true },
        steerTarget := some ⟨0, 0, 93⟩, chosenBoost := none, aimPoint := none,
        speedInfo := none, state := ⟨some ⟨frontFlipSteps, 5, true⟩⟩ } := by
    unfold getOutput
    dsimp only
    rw [if_neg (by simp)]
    unfold afterSequence
    rw [if_neg (by simp [kickPacket])]
    rw [if_pos (show isKickoff (kickPacket 1) from ⟨rfl, rfl, rfl⟩)]
    dsimp only
    rw [if_neg (by rintro ⟨-, hn⟩; simp at hn)]
    simp [zeroSteer, kickPacket]
    norm_num
  refine ⟨by rw [kickClose_eval], by rw [kickClose_eval], h2,
    ⟨⟨rfl, rfl, rfl⟩, by rw [hd1]; norm_num⟩, by rw [h3], by rw [h3]⟩

/-- C7 (amended): the flip triggers on a kickoff tick with the car within
1600 (flat) of the ball only while the sequence slot is exactly None — so
at most once per bot lifetime, on the first such kickoff; once any sequence
has been installed it is only ever ticked forward, never replaced, so no
later kickoff (even after the flip has completed) triggers another flip. -/
theorem C7_flip_once (team : ℕ) (steerFn : CarState → Vec3 → ℝ)
    (pads : List BoostPad) (s : BotState) (p : Packet) :
    (s.activeSequence = none → p.car.hasWheelContact = true → isKickoff p →
      p.car.location.flat.dist p.ballLocation.flat < 1600 →
      (getOutput team steerFn pads s p).controls.jump = true ∧
      (getOutput team steerFn pads s p).state = ⟨some ⟨frontFlipSteps, 0, false⟩⟩) ∧
    (∀ q, s.activeSequence = some q →
      ∃ q2, (getOutput team steerFn pads s p).state.activeSequence = some q2 ∧
        q2.steps = q.steps) := by
  constructor
  · intro hseq hw hk hclose
    have hs : s = ⟨none⟩ := by
      rcases s with ⟨a⟩
      have ha : a = none := hseq
      rw [ha]
    subst hs
    rw [getOutput_noSeq]
    unfold afterSequence
    rw [if_neg (by simp [hw])]
    rw [if_pos hk]
    dsimp only
    rw [if_pos ⟨hclose, rfl⟩]
    rw [beginFrontFlip_eval]
    exact ⟨rfl, rfl⟩
  · intro q hq
    have hs : s = ⟨some q⟩ := by
      rcases s with ⟨a⟩
      have ha : a = some q := hq
      rw [ha]
    subst hs
    unfold getOutput
    dsimp only
    by_cases hdone : q.done = false
    · rw [if_pos hdone]
      rcases ht : (Sequence.tick q p.dt).1 with _ | c
      · dsimp only
        refine ⟨(Sequence.tick q p.dt).2, ?_, rfl⟩
        rw [afterSequence_state_some]
      · dsimp only
        exact ⟨(Sequence.tick q p.dt).2, rfl, rfl⟩
    · rw [if_neg hdone]
      exact ⟨q, by rw [afterSequence_state_some], rfl⟩

/-- C7 witness: the amended statement applied on its two sides — the first
close kickoff from a clean state flips, and a close kickoff with a spent
sequence installed keeps that sequence (its steps unchanged). -/
theorem C7_flip_once_witness :
    ((getOutput 0 zeroSteer [] ⟨none⟩ (kickPacket 0)).controls.jump = true ∧
      (getOutput 0 zeroSteer [] ⟨none⟩ (kickPacket 0)).state =
        ⟨some ⟨frontFlipSteps, 0, false⟩⟩) ∧
    (∃ q2, (getOutput 0 zeroSteer [] ⟨some ⟨frontFlipSteps, 5, true⟩⟩
        (kickPacket 1)).state.activeSequence = some q2 ∧ q2.steps = frontFlipSteps) := by
  constructor
  · exact (C7_flip_once 0 zeroSteer [] ⟨none⟩ (kickPacket 0)).1 rfl rfl
      ⟨rfl, rfl, rfl⟩ (by norm_num [kickPacket, Vec3.dist, Vec3.flat])
  · exact (C7_flip_once 0 zeroSteer [] ⟨some ⟨frontFlipSteps, 5, true⟩⟩
      (kickPacket 1)).2 ⟨frontFlipSteps, 5, true⟩ rfl

/-- Loop invariant of choose_best_boost: a returned pad came from the list
(or the accumulator), passed the active/5000/defense filters, and its
detour score is minimal among all pads of the list that pass them. -/
lemma boostLoop_spec (crit : Prop) (carLoc target : Vec3) :
    ∀ (l : List BoostPad) (acc : Option (BoostPad × ℝ)) (p : BoostPad),
      (∀ pr : BoostPad × ℝ, acc = some pr → pr.2 = detourScore carLoc target pr.1) →
      boostLoop crit carLoc target l acc = some p →
      ((∃ s0, acc = some (p, s0)) ∨
        (p ∈ l ∧ p.isActive = true ∧ carLoc.flat.dist p.location.flat ≤ 5000 ∧
          (crit → carLoc.flat.dist p.location.flat ≤ 1200))) ∧
      (∀ q ∈ l, q.isActive = true → carLoc.flat.dist q.location.flat ≤ 5000 →
        (crit → carLoc.flat.dist q.location.flat ≤ 1200) →
        detourScore carLoc target p ≤ detourScore carLoc target q) ∧
      (∀ pr : BoostPad × ℝ, acc = some pr → detourScore carLoc target p ≤ pr.2) := by
  intro l
  induction l with
  | nil =>
    intro acc p hacc h
    rw [boostLoop] at h
    rcases acc with _ | ⟨bp, bs⟩
    · exact absurd h (by simp)
    · dsimp only [Option.map] at h
      injection h with h
      subst h
      refine ⟨Or.inl ⟨bs, rfl⟩, by simp, ?_⟩
      rintro ⟨p2, s2⟩ hpr
      injection hpr with hpr
      injection hpr with hp hs
      subst hp
      subst hs
      exact le_of_eq (hacc _ rfl).symm
  | cons pad rest ih =>
    intro acc p hacc h
    rw [boostLoop] at h
    by_cases h1 : pad.isActive = false
    · rw [if_pos h1] at h
      obtain ⟨hA, hB, hC⟩ := ih acc p hacc h
      refine ⟨?_, ?_, hC⟩
      · rcases hA with hA | ⟨hm, hrest⟩
        · exact Or.inl hA
        · exact Or.inr ⟨List.mem_cons_of_mem _ hm, hrest⟩
      · intro q hq hqa hq5 hq12
        rcases List.mem_cons.mp hq with rfl | hq
        · rw [h1] at hqa
          exact absurd hqa (by simp)
        · exact hB q hq hqa hq5 hq12
    · rw [if_neg h1] at h
      by_cases h2 : carLoc.flat.dist pad.location.flat > 5000
      · rw [if_pos h2] at h
        obtain ⟨hA, hB, hC⟩ := ih acc p hacc h
        refine ⟨?_, ?_, hC⟩
        · rcases hA with hA | ⟨hm, hrest⟩
          · exact Or.inl hA
          · exact Or.inr ⟨List.mem_cons_of_mem _ hm, hrest⟩
        · intro q hq hqa hq5 hq12
          rcases List.mem_cons.mp hq with rfl | hq
          · linarith
          · exact hB q hq hqa hq5 hq12
      · rw [if_neg h2] at h
        by_cases h3 : crit ∧ carLoc.flat.dist pad.location.flat > 1200
        · rw [if_pos h3] at h
          obtain ⟨hA, hB, hC⟩ := ih acc p hacc h
          refine ⟨?_, ?_, hC⟩
          · rcases hA with hA | ⟨hm, hrest⟩
            · exact Or.inl hA
            · exact Or.inr ⟨List.mem_cons_of_mem _ hm, hrest⟩
          · intro q hq hqa hq5 hq12
            rcases List.mem_cons.mp hq with rfl | hq
            · have := hq12 h3.1
              linarith [h3.2]
            · exact hB q hq hqa hq5 hq12
        · rw [if_neg h3] at h
          have hactive : pad.isActive = true := by
            revert h1
            cases pad.isActive <;> simp
          have hpadOK : pad.isActive = true ∧
              carLoc.flat.dist pad.location.flat ≤ 5000 ∧
              (crit → carLoc.flat.dist pad.location.flat ≤ 1200) := by
            refine ⟨hactive, not_lt.mp h2, fun hcrit => ?_⟩
            by_contra hgt
            exact h3 ⟨hcrit, not_le.mp hgt⟩
          have hacc2 : ∀ pr : BoostPad × ℝ,
              (some (pad, detourScore carLoc target pad) : Option (BoostPad × ℝ)) =
                some pr → pr.2 = detourScore carLoc target pr.1 := by
            rintro ⟨p2, s2⟩ hpr
            injection hpr with hpr
            injection hpr with hp hs
            subst hp
            subst hs
            rfl
          rcases acc with _ | ⟨bp, bs⟩
          all_goals dsimp only at h
          · obtain ⟨hA, hB, hC⟩ := ih _ p hacc2 h
            have hle_pad : detourScore carLoc target p ≤ detourScore carLoc target pad :=
              hC (pad, detourScore carLoc target pad) rfl
            refine ⟨?_, ?_, by rintro pr hpr; exact absurd hpr (by simp)⟩
            · rcases hA with ⟨s0, he⟩ | ⟨hm, hrest⟩
              · injection he with he
                injection he with hp hs
                subst hp
                exact Or.inr ⟨List.mem_cons_self _ _, hpadOK⟩
              · exact Or.inr ⟨List.mem_cons_of_mem _ hm, hrest⟩
            · intro q hq hqa hq5 hq12
              rcases List.mem_cons.mp hq with rfl | hq
              · exact hle_pad
              · exact hB q hq hqa hq5 hq12
          · have hbs : bs = detourScore carLoc target bp := hacc (bp, bs) rfl
            by_cases h4 : detourScore carLoc target pad < bs
            · rw [if_pos h4] at h
              obtain ⟨hA, hB, hC⟩ := ih _ p hacc2 h
              have hle_pad : detourScore carLoc target p ≤ detourScore carLoc target pad :=
                hC (pad, detourScore carLoc target pad) rfl
              refine ⟨?_, ?_, ?_⟩
              · rcases hA with ⟨s0, he⟩ | ⟨hm, hrest⟩
                · injection he with he
                  injection he with hp hs
                  subst hp
                  exact Or.inr ⟨List.mem_cons_self _ _, hpadOK⟩
                · exact Or.inr ⟨List.mem_cons_of_mem _ hm, hrest⟩
              · intro q hq hqa hq5 hq12
                rcases List.mem_cons.mp hq with rfl | hq
                · exact hle_pad
                · exact hB q hq hqa hq5 hq12
              · rintro ⟨p2, s2⟩ hpr
                injection hpr with hpr
                injection hpr with hp hs
                subst hp
                subst hs
                exact le_of_lt (lt_of_le_of_lt hle_pad h4)
            · rw [if_neg h4] at h
              obtain ⟨hA, hB, hC⟩ := ih _ p hacc h
              have hble : detourScore carLoc target p ≤ bs := hC (bp, bs) rfl
              have hble_pad : detourScore carLoc target p ≤ detourScore carLoc target pad :=
                le_trans hble (not_lt.mp h4)
              refine ⟨?_, ?_, hC⟩
              · rcases hA with hA | ⟨hm, hrest⟩
                · exact Or.inl hA
                · exact Or.inr ⟨List.mem_cons_of_mem _ hm, hrest⟩
              · intro q hq hqa hq5 hq12
                rcases List.mem_cons.mp hq with rfl | hq
                · exact hble_pad
                · exact hB q hq hqa hq5 hq12

/-- The selector's contract: a returned pad is an active listed pad within
5000 (within 1200 under active defense) and of minimal detour score among
such pads. -/
lemma chooseBestBoost_spec (pads : List BoostPad) (carLoc target ball goal : Vec3)
    (p : BoostPad) (h : chooseBestBoost pads carLoc target ball goal = some p) :
    p ∈ pads ∧ p.isActive = true ∧ carLoc.flat.dist p.location.flat ≤ 5000 ∧
    (ball.flat.dist goal.flat < 1800 → carLoc.flat.dist p.location.flat ≤ 1200) ∧
    ∀ q ∈ pads, q.isActive = true → carLoc.flat.dist q.location.flat ≤ 5000 →
      (ball.flat.dist goal.flat < 1800 → carLoc.flat.dist q.location.flat ≤ 1200) →
      detourScore carLoc target p ≤ detourScore carLoc target q := by
  unfold chooseBestBoost at h
  obtain ⟨hA, hB, hC⟩ := boostLoop_spec (ball.flat.dist goal.flat < 1800) carLoc target
    pads none p (by rintro pr hpr; exact absurd hpr (by simp)) h
  rcases hA with ⟨s0, he⟩ | ⟨hm, hrest⟩
  · exact absurd he (by simp)
  · exact ⟨hm, hrest.1, hrest.2.1, hrest.2.2, hB⟩

/-- get_output either answers from the active sequence (an all-absent
observation record) or falls through to the post-sequence logic. -/
lemma getOutput_branches (team : ℕ) (steerFn : CarState → Vec3 → ℝ)
    (pads : List BoostPad) (s : BotState) (p : Packet) :
    (∃ c s2, getOutput team steerFn pads s p =
      { controls := c, steerTarget := none, chosenBoost := none, aimPoint := none,
        speedInfo := none, state := s2 }) ∨
    ∃ s2, getOutput team steerFn pads s p = afterSequence team steerFn pads s2 p := by
  unfold getOutput
  rcases hs : s.activeSequence with _ | q
  · exact Or.inr ⟨s, rfl⟩
  · dsimp only
    by_cases hdone : q.done = false
    · rw [if_pos hdone]
      rcases ht : (Sequence.tick q p.dt).1 with _ | c
      · exact Or.inr ⟨⟨some (Sequence.tick q p.dt).2⟩, rfl⟩
      · exact Or.inl ⟨c, ⟨some (Sequence.tick q p.dt).2⟩, rfl⟩
    · rw [if_neg hdone]
      exact Or.inr ⟨s, rfl⟩

/-- The post-sequence logic answers from the airborne-recovery branch, the
kickoff branch, or the main pipeline. -/
lemma afterSequence_branches (team : ℕ) (steerFn : CarState → Vec3 → ℝ)
    (pads : List BoostPad) (s : BotState) (p : Packet) :
    (∃ c2 st2, afterSequence team steerFn pads s p =
      { controls := c2, steerTarget := none, chosenBoost := none, aimPoint := none,
        speedInfo := none, state := st2 }) ∨
    (∃ c2 st2, afterSequence team steerFn pads s p =
      { controls := c2, steerTarget := some p.ballLocation, chosenBoost := none,
        aimPoint := none, speedInfo := none, state := st2 }) ∨
    afterSequence team steerFn pads s p = mainPipeline team steerFn pads s p := by
  unfold afterSequence
  dsimp only
  split_ifs with h1 h2 h3
  · exact Or.inl ⟨_, _, rfl⟩
  · exact Or.inr (Or.inl ⟨_, _, rfl⟩)
  · exact Or.inr (Or.inl ⟨_, _, rfl⟩)
  · exact Or.inr (Or.inr rfl)

/-- Resource routing inside the pipeline: a chosen pad implies low boost on
a non-kickoff tick, the pad outright becomes the steering target, and the
pad is an active listed pad within 5000 (within 1200 under active defense)
of minimal detour score relative to the pre-override aim point. -/
lemma mainPipeline_boost_routing (team : ℕ) (steerFn : CarState → Vec3 → ℝ)
    (pads : List BoostPad) (s : BotState) (p : Packet) (pad : BoostPad)
    (hc : (mainPipeline team steerFn pads s p).chosenBoost = some pad) :
    p.car.boost < 25 ∧ ¬ isKickoff p ∧
    (mainPipeline team steerFn pads s p).steerTarget = some pad.location ∧
    pad ∈ pads ∧ pad.isActive = true ∧
    p.car.location.flat.dist pad.location.flat ≤ 5000 ∧
    (p.ballLocation.flat.dist (ownGoal team).flat < 1800 →
      p.car.location.flat.dist pad.location.flat ≤ 1200) ∧
    ∀ aim, (mainPipeline team steerFn pads s p).aimPoint = some aim →
      ∀ q ∈ pads, q.isActive = true → p.car.location.flat.dist q.location.flat ≤ 5000 →
        (p.ballLocation.flat.dist (ownGoal team).flat < 1800 →
          p.car.location.flat.dist q.location.flat ≤ 1200) →
        detourScore p.car.location aim pad ≤ detourScore p.car.location aim q := by
  unfold mainPipeline at hc ⊢
  dsimp only at hc ⊢
  by_cases hcond : p.car.boost < 25 ∧ ¬ isKickoff p
  · rw [if_pos hcond] at hc ⊢
    obtain ⟨hm, hact, h5, h12, hmin⟩ := chooseBestBoost_spec _ _ _ _ _ _ hc
    rw [hc]
    dsimp only
    refine ⟨hcond.1, hcond.2, rfl, hm, hact, h5, h12, ?_⟩
    intro aim haim
    injection haim with haim
    subst haim
    exact hmin
  · rw [if_neg hcond] at hc
    exact absurd hc (by simp)

/-- Under the boost override the pipeline's speed controller receives no
time budget: the recorded time remaining is absent and the desired speed is
the heading-dependent default. -/
lemma mainPipeline_time_budget (team : ℕ) (steerFn : CarState → Vec3 → ℝ)
    (pads : List BoostPad) (s : BotState) (p : Packet) (pad : BoostPad)
    (info : SpeedInfo)
    (hc : (mainPipeline team steerFn pads s p).chosenBoost = some pad)
    (hi : (mainPipeline team steerFn pads s p).speedInfo = some info) :
    info.timeRemaining = none ∧
    info.desiredSpeed = desiredSpeedDefault info.distanceToTarget info.angleToTarget := by
  unfold mainPipeline at hc hi
  dsimp only at hc hi
  by_cases hcond : p.car.boost < 25 ∧ ¬ isKickoff p
  · rw [if_pos hcond] at hc hi
    rw [hc] at hi
    dsimp only at hi
    rw [Option.some.injEq] at hi
    subst hi
    exact ⟨rfl, rfl⟩
  · rw [if_neg hcond] at hc
    exact absurd hc (by simp)

/-- The pad 5001 away is filtered out before scoring. -/
lemma chooseFar_none :
    chooseBestBoost [⟨⟨0, 5001, 0⟩, true⟩] ⟨0, 0, 17⟩ ⟨0, 2760, 93⟩ ⟨0, 3000, 93⟩
      (ownGoal 0) = none := by
  unfold chooseBestBoost
  norm_num [boostLoop, Vec3.dist]

/-- The pad 1000 ahead survives the filters and is selected. -/
lemma choosePadW :
    chooseBestBoost [⟨⟨0, 1000, 0⟩, true⟩] ⟨0, 0, 17⟩ ⟨0, 2760, 93⟩ ⟨0, 3000, 93⟩
      (ownGoal 0) = some ⟨⟨0, 1000, 0⟩, true⟩ := by
  unfold chooseBestBoost
  norm_num [boostLoop, Vec3.dist, ownGoal, opponentGoalY]

set_option maxHeartbeats 1000000 in
/-- Low-boost pipeline tick with only the far pad available: no pad is
chosen and the bot keeps the offense aim point. -/
lemma pipeFar_eval : getOutput 0 zeroSteer [farPad] ⟨none⟩ (pipePacket 10) =
    { controls :=
        { steer := 0, throttle := 1, pitch := -0.15, roll := 0,
          jump := false, boost := true, handbrake := false },
      steerTarget := some ⟨0, 2760, 93⟩, chosenBoost := none,
      aimPoint := some ⟨0, 2760, 93⟩,
      speedInfo := some ⟨2760, 0, none, 1900, 0, 1900⟩, state := ⟨none⟩ } := by
  rw [getOutput_noSeq]
  unfold afterSequence
  rw [if_neg (by simp [pipePacket])]
  rw [if_neg (by simp [isKickoff, pipePacket])]
  unfold mainPipeline
  norm_num [pipePacket, selectInterceptSlice, shadow_zeroVel, approach3000,
    relativeLocation, oriY, Vec3.dot, Vec3.dist, atan2_zero_pos,
    chooseDesiredSpeed, desiredSpeedDefault, zeroSteer, isKickoff,
    decide_eq_true_eq, decide_eq_false_iff_not,
    TickResult.mk.injEq, Controls.mk.injEq, SpeedInfo.mk.injEq, Vec3.ext_iff]
  norm_num [chooseFar_none, farPad, relativeLocation, oriY, Vec3.dot, Vec3.dist,
    atan2_zero_pos, chooseDesiredSpeed, desiredSpeedDefault,
    decide_eq_true_eq, decide_eq_false_iff_not, BoostPad.mk.injEq,
    TickResult.mk.injEq, Controls.mk.injEq, SpeedInfo.mk.injEq, Vec3.ext_iff]

set_option maxHeartbeats 1000000 in
/-- Low-boost pipeline tick with the near pad available: the pad is chosen
and outright replaces the aim point as the steering target, and the speed
controller runs with no time budget (default heuristic, 1900). -/
lemma pipeBoost_eval : getOutput 0 zeroSteer [padW] ⟨none⟩ (pipePacket 10) =
    { controls :=
        { steer := 0, throttle := 1, pitch := -0.15, roll := 0,
          jump := false, boost := true, handbrake := false },
      steerTarget := some ⟨0, 1000, 0⟩, chosenBoost := some padW,
      aimPoint := some ⟨0, 2760, 93⟩,
      speedInfo := some ⟨1000, 0, none, 1900, 0, 1900⟩, state := ⟨none⟩ } := by
  rw [getOutput_noSeq]
  unfold afterSequence
  rw [if_neg (by simp [pipePacket])]
  rw [if_neg (by simp [isKickoff, pipePacket])]
  unfold mainPipeline
  norm_num [pipePacket, selectInterceptSlice, shadow_zeroVel, approach3000,
    relativeLocation, oriY, Vec3.dot, Vec3.dist, atan2_zero_pos,
    chooseDesiredSpeed, desiredSpeedDefault, zeroSteer, isKickoff,
    decide_eq_true_eq, decide_eq_false_iff_not,
    TickResult.mk.injEq, Controls.mk.injEq, SpeedInfo.mk.injEq, Vec3.ext_iff]
  norm_num [choosePadW, padW, relativeLocation, oriY, Vec3.dot, Vec3.dist,
    atan2_zero_pos, chooseDesiredSpeed, desiredSpeedDefault,
    decide_eq_true_eq, decide_eq_false_iff_not, BoostPad.mk.injEq,
    TickResult.mk.injEq, Controls.mk.injEq, SpeedInfo.mk.injEq, Vec3.ext_iff]

/-- C6 counterexample: the claim scores EVERY active full-size pad, but the
code first filters pads to within 5000 of the vehicle even with no active
defense.  With low boost, no kickoff, no defense, and a single active pad
5001 away (the claim's minimum-score pad), the selector returns nothing and
the target remains the offense aim point instead of the pad location. -/
theorem C6_counterexample :
    (pipePacket 10).car.boost < 25 ∧ ¬ isKickoff (pipePacket 10) ∧
    farPad.isActive = true ∧
    ¬ ((pipePacket 10).ballLocation.flat.dist (ownGoal 0).flat < 1800) ∧
    chooseBestBoost [farPad] ⟨0, 0, 17⟩ ⟨0, 2760, 93⟩ ⟨0, 3000, 93⟩ (ownGoal 0) = none ∧
    (getOutput 0 zeroSteer [farPad] ⟨none⟩ (pipePacket 10)).steerTarget =
      some ⟨0, 2760, 93⟩ ∧
    (⟨0, 2760, 93⟩ : Vec3) ≠ farPad.location := by
  refine ⟨by norm_num [pipePacket], by simp [isKickoff, pipePacket], rfl, ?_,
    chooseFar_none, by rw [pipeFar_eval], ?_⟩
  · norm_num [pipePacket, Vec3.dist, ownGoal, opponentGoalY]
  · norm_num [farPad, Vec3.ext_iff]

/-- C6 (amended): whenever the resource-routing rule chooses a pad (own
boost below 25, not kickoff), the chosen pad is an active full-size pad
within 5000 (flat) of the vehicle — restricted to within 1200 under active
defense (ball within 1800 of the own goal) — its detour score
distance-from-vehicle + 0.35 * distance-from-pad-to-aim is minimal among
all such candidate pads, and its location outright replaces the aim point
as the steering target. -/
theorem C6_boost_routing (team : ℕ) (steerFn : CarState → Vec3 → ℝ)
    (pads : List BoostPad) (s : BotState) (p : Packet) (pad : BoostPad)
    (hc : (getOutput team steerFn pads s p).chosenBoost = some pad) :
    p.car.boost < 25 ∧ ¬ isKickoff p ∧
    (getOutput team steerFn pads s p).steerTarget = some pad.location ∧
    pad ∈ pads ∧ pad.isActive = true ∧
    p.car.location.flat.dist pad.location.flat ≤ 5000 ∧
    (p.ballLocation.flat.dist (ownGoal team).flat < 1800 →
      p.car.location.flat.dist pad.location.flat ≤ 1200) ∧
    ∀ aim, (getOutput team steerFn pads s p).aimPoint = some aim →
      ∀ q ∈ pads, q.isActive = true → p.car.location.flat.dist q.location.flat ≤ 5000 →
        (p.ballLocation.flat.dist (ownGoal team).flat < 1800 →
          p.car.location.flat.dist q.location.flat ≤ 1200) →
        detourScore p.car.location aim pad ≤ detourScore p.car.location aim q := by
  rcases getOutput_branches team steerFn pads s p with ⟨c, s2, he⟩ | ⟨s2, he⟩
  · rw [he] at hc
    exact absurd hc (by simp)
  · rcases afterSequence_branches team steerFn pads s2 p with
      ⟨c2, st2, he2⟩ | ⟨c2, st2, he2⟩ | he2
    · rw [he, he2] at hc
      exact absurd hc (by simp)
    · rw [he, he2] at hc
      exact absurd hc (by simp)
    · rw [he, he2] at hc ⊢
      exact mainPipeline_boost_routing team steerFn pads s2 p pad hc

/-- C6 witness: the amended routing applied on the near-pad run. -/
theorem C6_boost_routing_witness :
    (getOutput 0 zeroSteer [padW] ⟨none⟩ (pipePacket 10)).chosenBoost = some padW ∧
    ((pipePacket 10).car.boost < 25 ∧ ¬ isKickoff (pipePacket 10) ∧
      (getOutput 0 zeroSteer [padW] ⟨none⟩ (pipePacket 10)).steerTarget =
        some padW.location ∧
      padW ∈ [padW] ∧ padW.isActive = true ∧
      (pipePacket 10).car.location.flat.dist padW.location.flat ≤ 5000 ∧
      ((pipePacket 10).ballLocation.flat.dist (ownGoal 0).flat < 1800 →
        (pipePacket 10).car.location.flat.dist padW.location.flat ≤ 1200) ∧
      ∀ aim, (getOutput 0 zeroSteer [padW] ⟨none⟩ (pipePacket 10)).aimPoint = some aim →
        ∀ q ∈ [padW], q.isActive = true →
          (pipePacket 10).car.location.flat.dist q.location.flat ≤ 5000 →
          ((pipePacket 10).ballLocation.flat.dist (ownGoal 0).flat < 1800 →
            (pipePacket 10).car.location.flat.dist q.location.flat ≤ 1200) →
          detourScore (pipePacket 10).car.location aim padW ≤
            detourScore (pipePacket 10).car.location aim q) := by
  have hc : (getOutput 0 zeroSteer [padW] ⟨none⟩ (pipePacket 10)).chosenBoost =
      some padW := by rw [pipeBoost_eval]
  exact ⟨hc, C6_boost_routing 0 zeroSteer [padW] ⟨none⟩ (pipePacket 10) padW hc⟩

/-- C8 (confirmed): on every tick on which the resource-routing rule
overrides the target with a boost pad, the speed controller receives no
time budget — the recorded time remaining is absent and the desired speed
is computed by the heading-dependent default heuristic rather than distance
divided by time-to-intercept. -/
theorem C8_boost_override_time_budget (team : ℕ) (steerFn : CarState → Vec3 → ℝ)
    (pads : List BoostPad) (s : BotState) (p : Packet) (pad : BoostPad)
    (info : SpeedInfo)
    (hc : (getOutput team steerFn pads s p).chosenBoost = some pad)
    (hi : (getOutput team steerFn pads s p).speedInfo = some info) :
    info.timeRemaining = none ∧
    info.desiredSpeed = desiredSpeedDefault info.distanceToTarget info.angleToTarget := by
  rcases getOutput_branches team steerFn pads s p with ⟨c, s2, he⟩ | ⟨s2, he⟩
  · rw [he] at hc
    exact absurd hc (by simp)
  · rcases afterSequence_branches team steerFn pads s2 p with
      ⟨c2, st2, he2⟩ | ⟨c2, st2, he2⟩ | he2
    · rw [he, he2] at hc
      exact absurd hc (by simp)
    · rw [he, he2] at hc
      exact absurd hc (by simp)
    · rw [he, he2] at hc hi
      exact mainPipeline_time_budget team steerFn pads s2 p pad info hc hi

/-- C8 witness: the near-pad run has an absent time budget and the default
desired speed 1900 at distance 1000 and heading 0. -/
theorem C8_boost_override_time_budget_witness :
    (getOutput 0 zeroSteer [padW] ⟨none⟩ (pipePacket 10)).chosenBoost = some padW ∧
    (getOutput 0 zeroSteer [padW] ⟨none⟩ (pipePacket 10)).speedInfo =
      some ⟨1000, 0, none, 1900, 0, 1900⟩ ∧
    ((⟨1000, 0, none, 1900, 0, 1900⟩ : SpeedInfo).timeRemaining = none ∧
      (⟨1000, 0, none, 1900, 0, 1900⟩ : SpeedInfo).desiredSpeed =
        desiredSpeedDefault 1000 0) := by
  have hc : (getOutput 0 zeroSteer [padW] ⟨none⟩ (pipePacket 10)).chosenBoost =
      some padW := by rw [pipeBoost_eval]
  have hi : (getOutput 0 zeroSteer [padW] ⟨none⟩ (pipePacket 10)).speedInfo =
      some ⟨1000, 0, none, 1900, 0, 1900⟩ := by rw [pipeBoost_eval]
  exact ⟨hc, hi,
    C8_boost_override_time_budget 0 zeroSteer [padW] ⟨none⟩ (pipePacket 10) padW
      ⟨1000, 0, none, 1900, 0, 1900⟩ hc hi⟩

end BotModel
